import Mathlib

/-!
Shallow embedding of the Getzen projection model (`gt.py`).

The script's core is the year-by-year recurrence `simular_projecao`, the
linear calibration scan over `intervalo_testes` producing `best_gmed`, the
near-duplicate result-compilation loop that additionally records a
per-year rationale string (`motivo`), and the three `np.mean` summary
windows.  Real numbers of the source are modelled as `ℝ`; `np.exp` is
`Real.exp`.  Python lists that the source appends to (and reads with
`[-1]` / `[-2]`) are modelled as Lean lists kept in reverse order (most
recently appended element first); the final results are reversed back.
-/

/-- Sidebar globals of `gt.py` that feed the computation (the projection
configuration).  `gm2021 .. gm2024` are the four manually entered medical
growth values (`g_manual`).  `renda_pc_proj` is the resolved income
growth benchmark (inflation + real growth, possibly upload-derived). -/
structure Cfg where
  anos_proj : ℕ
  ano_limite : ℤ
  renda_pc_proj : ℝ
  gm2021 : ℝ
  gm2022 : ℝ
  gm2023 : ℝ
  gm2024 : ℝ
  share_inicial : ℝ
  share_resistencia : ℝ

/-- Hardcoded projection start year (`ano_inicio = 2026`, line 124). -/
def ano_inicio : ℤ := 2026

/-- Mean of the four manual growth values (`valores_hist.mean()`). -/
noncomputable def mean4 (c : Cfg) : ℝ :=
  (c.gm2021 + c.gm2022 + c.gm2023 + c.gm2024) / 4

/-- Biased covariance `np.cov(anos_hist, valores_hist, bias=True)[0, 1]`
for `anos_hist = [2021, 2022, 2023, 2024]` (whose mean is 2022.5). -/
noncomputable def cov_b (c : Cfg) : ℝ :=
  ((2021 - 2022.5) * (c.gm2021 - mean4 c) + (2022 - 2022.5) * (c.gm2022 - mean4 c)
    + (2023 - 2022.5) * (c.gm2023 - mean4 c) + (2024 - 2022.5) * (c.gm2024 - mean4 c)) / 4

/-- Biased variance `np.var(anos_hist)` of the four history years. -/
noncomputable def var_anos : ℝ :=
  ((2021 - 2022.5) ^ 2 + (2022 - 2022.5) ^ 2 + (2023 - 2022.5) ^ 2 + (2024 - 2022.5) ^ 2) / 4

/-- Regression slope `b` of the manual linear regression (line 216). -/
noncomputable def b_reg (c : Cfg) : ℝ := cov_b c / var_anos

/-- Regression intercept `a = valores_hist.mean() - b * anos_hist.mean()` (line 217). -/
noncomputable def a_reg (c : Cfg) : ℝ := mean4 c - b_reg c * 2022.5

/-- Regression-estimated growth for 2025: `g_2025 = a + b * 2025` (line 218). -/
noncomputable def g_2025 (c : Cfg) : ℝ := a_reg c + b_reg c * 2025

/-- Logistic resistance factor (lines 246-252).  The source declares the
steepness as a default argument `k = 0.02`; every call site uses that
default, so callers here pass `0.02` explicitly. -/
noncomputable def resistencia (share_atual limite k : ℝ) : ℝ :=
  1.0 / (1.0 + Real.exp ((share_atual - limite) / k))

/-- Year-resolution rule of the projection loop (lines 266-280): linear
interpolation from `g_2025` to the candidate full growth until 2030, exact
convergence to income growth from `ano_limite` on, logistic resistance in
between.  `prevShare` is `share[-1]` at the time the year is processed.
`denom = 2030 - 2025` is an integer in the source, so its zero test is an
integer test. -/
noncomputable def g_ano (c : Cfg) (g_medico_final : ℝ) (ano : ℤ) (prevShare : ℝ) : ℝ :=
  if ano ≤ 2030 then
    let denom : ℤ := 2030 - 2025
    let frac0 : ℝ := if denom ≠ 0 then ((ano - 2025 : ℤ) : ℝ) / ((denom : ℤ) : ℝ) else 1.0
    let frac : ℝ := min (max frac0 0.0) 1.0
    g_2025 c + (g_medico_final - g_2025 c) * frac
  else if ano ≥ c.ano_limite then
    c.renda_pc_proj
  else
    let excesso := max (g_medico_final - c.renda_pc_proj) 0.0
    let fator_res := resistencia prevShare c.share_resistencia 0.02
    c.renda_pc_proj + excesso * fator_res

/-- Share of output at the start of year index `t` (`share[t]` of the
source lists; seeded with `share_inicial`, updated by line 285). -/
noncomputable def shareSeq (c : Cfg) (gf : ℝ) : ℕ → ℝ
  | 0 => c.share_inicial
  | t + 1 =>
      shareSeq c gf t *
        (1.0 + (g_ano c gf (ano_inicio + (t : ℤ)) (shareSeq c gf t) - c.renda_pc_proj))

/-- Resolved medical growth rate of year index `t` (`crescimento_medico[t]`). -/
noncomputable def gSeq (c : Cfg) (gf : ℝ) (t : ℕ) : ℝ :=
  g_ano c gf (ano_inicio + (t : ℤ)) (shareSeq c gf t)

/-- HCCTR of year index `t`: `g_m - renda_pc_proj` (line 283). -/
noncomputable def hcctrSeq (c : Cfg) (gf : ℝ) (t : ℕ) : ℝ :=
  gSeq c gf t - c.renda_pc_proj

/-- Cumulative cost factor after `t` years (`custo[t]`; seeded `1.0`,
updated by line 284). -/
noncomputable def custoSeq (c : Cfg) (gf : ℝ) : ℕ → ℝ
  | 0 => 1.0
  | t + 1 => custoSeq c gf t * (1.0 + gSeq c gf t)

/-- Loop state of `simular_projecao`: the four appended lists, kept in
reverse order (head = most recently appended = Python `[-1]`). -/
structure SimState where
  crescimento : List ℝ
  hcctr : List ℝ
  share : List ℝ
  custo : List ℝ

/-- One iteration of the `simular_projecao` loop body (lines 266-285). -/
noncomputable def simStep (c : Cfg) (gf : ℝ) (st : SimState) (ano : ℤ) : SimState :=
  let g_m := g_ano c gf ano st.share.headI
  ⟨g_m :: st.crescimento,
    (g_m - c.renda_pc_proj) :: st.hcctr,
    st.share.headI * (1.0 + (g_m - c.renda_pc_proj)) :: st.share,
    st.custo.headI * (1.0 + g_m) :: st.custo⟩

/-- Projected calendar years `anos = range(ano_inicio, ano_inicio + anos_proj)`. -/
def anosList (n : ℕ) : List ℤ :=
  (List.range n).map (fun (t : ℕ) => ano_inicio + (t : ℤ))

/-- Loop state after processing the first `n` projected years, starting
from `share = [share_inicial]`, `custo = [1.0]`. -/
noncomputable def simLoop (c : Cfg) (gf : ℝ) (n : ℕ) : SimState :=
  (anosList n).foldl (simStep c gf) ⟨[], [], [c.share_inicial], [1.0]⟩

/-- The function `simular_projecao(g_medico_final)` (lines 255-287):
returns `(share, crescimento_medico, hcctr, custo)` in chronological
order. -/
noncomputable def simular_projecao (c : Cfg) (gf : ℝ) :
    List ℝ × List ℝ × List ℝ × List ℝ :=
  let st := simLoop c gf c.anos_proj
  (st.share.reverse, st.crescimento.reverse, st.hcctr.reverse, st.custo.reverse)

/-- Reverse-order list `[f (n-1), ..., f 0]`, the shape of an append-only
Python list after `n` iterations. -/
def revMap {α : Type} (f : ℕ → α) : ℕ → List α
  | 0 => []
  | n + 1 => f n :: revMap f n

/-- One displayed table row (`debug_data` entry, lines 333-339); `sharePct`
is `share[-2] * 100`, the pre-update share of the year. -/
structure DebugRow where
  ano : ℤ
  crescPct : ℝ
  hcctrPct : ℝ
  sharePct : ℝ
  motivo : String

/-- Default row used with `List.getD` when indexing the table. -/
def rowDefault : DebugRow := ⟨0, 0, 0, 0, ""⟩

/-- Year-resolution rule of the result-compilation loop (lines 313-326),
which duplicates the `simular_projecao` branches and additionally records
the rationale string `motivo`. -/
noncomputable def g_motivo (c : Cfg) (gmed : ℝ) (ano : ℤ) (prevShare : ℝ) : ℝ × String :=
  if ano ≤ 2030 then
    let denom : ℤ := 2030 - 2025
    let frac0 : ℝ := if denom ≠ 0 then ((ano - 2025 : ℤ) : ℝ) / ((denom : ℤ) : ℝ) else 1.0
    let frac : ℝ := min (max frac0 0.0) 1.0
    ⟨g_2025 c + (gmed - g_2025 c) * frac, "Interpolação 2025–2030"⟩
  else if ano ≥ c.ano_limite then
    ⟨c.renda_pc_proj, "Convergência de Crescimento"⟩
  else
    let excesso := max (gmed - c.renda_pc_proj) 0.0
    let fator_res := resistencia prevShare c.share_resistencia 0.02
    ⟨c.renda_pc_proj + excesso * fator_res, "Resistência Aplicada"⟩

/-- Loop state of the result-compilation loop: the four numeric lists plus
the `debug_data` rows, all in reverse order. -/
structure DispState where
  crescimento : List ℝ
  hcctr : List ℝ
  share : List ℝ
  custo : List ℝ
  debug : List DebugRow

/-- One iteration of the result-compilation loop body (lines 312-339).
The row's share is read from the share list after the year's append, at
Python index `[-2]` (= `tail.headI` of the reversed representation). -/
noncomputable def dispStep (c : Cfg) (gmed : ℝ) (st : DispState) (ano : ℤ) : DispState :=
  let gm := g_motivo c gmed ano st.share.headI
  let share2 := st.share.headI * (1.0 + (gm.1 - c.renda_pc_proj)) :: st.share
  ⟨gm.1 :: st.crescimento,
    (gm.1 - c.renda_pc_proj) :: st.hcctr,
    share2,
    st.custo.headI * (1.0 + gm.1) :: st.custo,
    ⟨ano, gm.1 * 100, (gm.1 - c.renda_pc_proj) * 100, share2.tail.headI * 100, gm.2⟩ :: st.debug⟩

/-- Result-compilation loop state after `n` years. -/
noncomputable def dispLoop (c : Cfg) (gmed : ℝ) (n : ℕ) : DispState :=
  (anosList n).foldl (dispStep c gmed) ⟨[], [], [c.share_inicial], [1.0], []⟩

/-- The inline result-compilation block (lines 305-341): the four numeric
series in chronological order, plus the displayed `debug_data` table. -/
noncomputable def compilar_resultados (c : Cfg) (gmed : ℝ) :
    (List ℝ × List ℝ × List ℝ × List ℝ) × List DebugRow :=
  let st := dispLoop c gmed c.anos_proj
  ((st.share.reverse, st.crescimento.reverse, st.hcctr.reverse, st.custo.reverse),
    st.debug.reverse)

/-- The displayed debug row that the duplicated recurrence would produce
for year index `t` (used to characterise `compilar_resultados`). -/
noncomputable def rowSeq (c : Cfg) (gmed : ℝ) (t : ℕ) : DebugRow :=
  let gm := g_motivo c gmed (ano_inicio + (t : ℤ)) (shareSeq c gmed t)
  ⟨ano_inicio + (t : ℤ), gm.1 * 100, (gm.1 - c.renda_pc_proj) * 100,
    shareSeq c gmed t * 100, gm.2⟩

/-- Candidate scan `np.linspace(0.05, 0.12, 200)` (line 292):
`linspace(a, b, n)` is `a + (b - a) * i / (n - 1)`. -/
noncomputable def intervalo_testes : List ℝ :=
  (List.range 200).map (fun i => 0.05 + (0.12 - 0.05) * (i : ℝ) / 199)

/-- Acceptance test of the calibration loop (line 298): the terminal
share `s_sim[-1]` of the candidate's projection reaches the resistance
share. -/
noncomputable def passes (c : Cfg) (g : ℝ) : Prop :=
  (simular_projecao c g).1.getLastD 0 ≥ c.share_resistencia

open Classical in
/-- Calibration scan (lines 293-300): `best_gmed` starts at
`renda_pc_proj` and the loop breaks at the first candidate whose terminal
share reaches `share_resistencia`; exhaustion leaves the fallback
untouched.  The candidate list is a parameter (the source iterates
`intervalo_testes`). -/
noncomputable def best_gmed_of (c : Cfg) : List ℝ → ℝ
  | [] => c.renda_pc_proj
  | g :: rest => if passes c g then g else best_gmed_of c rest

/-- Mean of a list as `np.mean` computes it.  `np.mean` of an empty slice
is the IEEE `nan` (accompanied only by a stderr `RuntimeWarning`); that
non-numeric outcome is modelled as `none`, and `Option.map` models the
fact that `nan` propagates through the subsequent `* 100`. -/
noncomputable def npMean (l : List ℝ) : Option ℝ :=
  if l.isEmpty then none else some (l.sum / (l.length : ℝ))

/-- The three summary indicators (lines 357-359): means of `hcctr[:5]`,
`hcctr[5:9]` and `hcctr[9:]`, each scaled by 100. -/
noncomputable def summarize (hcctr : List ℝ) : Option ℝ × Option ℝ × Option ℝ :=
  ((npMean (hcctr.take 5)).map (fun x => x * 100),
    (npMean ((hcctr.drop 5).take 4)).map (fun x => x * 100),
    (npMean (hcctr.drop 9)).map (fun x => x * 100))

/-- Example A of the specification: the four default manual rates,
`renda = 0.05`, five projected years 2026-2030. -/
noncomputable def exA : Cfg :=
  ⟨5, 2060, 0.05, 0.25, 0.23, 0.1425, 0.1425, 0.096, 0.15⟩

/-- Configuration whose regression estimate is `g_2025 = -0.5` even
though every manual rate lies in the sidebar's `[0, 1]` range: the
downward trend extrapolates below zero, so early projected rates are
negative (but above `-1`). -/
noncomputable def exC9 : Cfg :=
  ⟨10, 2060, 0.05, 1, 1, 0, 0, 0.096, 0.15⟩

/-- Configuration that starts below the resistance ceiling and crosses it
during the interpolation years: constant manual rates `0.5`, income
growth `0`, initial share `0.14`, ceiling `0.15`. -/
noncomputable def exC5 : Cfg :=
  ⟨10, 2060, 0, 0.5, 0.5, 0.5, 0.5, 0.14, 0.15⟩

/-- Ten-year configuration (horizon 2026-2035) whose convergence year is
2035, so year index 9 is a convergence year and index 5 (year 2031) is a
resistance year. -/
noncomputable def exW2 : Cfg :=
  ⟨10, 2035, 0.05, 0.1, 0.1, 0.1, 0.1, 0.096, 0.15⟩

/-- One-year configuration used to exercise the calibration scan:
constant manual rates `0.1`, income growth `0`, target share `0.11`. -/
noncomputable def exC3 : Cfg :=
  ⟨1, 2060, 0, 0.1, 0.1, 0.1, 0.1, 0.1, 0.11⟩

/-- One-year configuration whose initial share already meets the target
and whose rates are all `0.05`: the candidate `0.05` legitimately
calibrates, returning a value identical to the exhaustion fallback. -/
noncomputable def exC6 : Cfg :=
  ⟨1, 2060, 0.05, 0.05, 0.05, 0.05, 0.05, 0.2, 0.15⟩

/-- Configuration with a zero-length horizon. -/
noncomputable def exH0 : Cfg :=
  ⟨0, 2060, 0.05, 0.25, 0.23, 0.1425, 0.1425, 0.096, 0.15⟩

/-! ### Structural lemmas: the loops compute the per-index sequences -/

theorem revMap_succ {α : Type} (f : ℕ → α) (n : ℕ) :
    revMap f (n + 1) = f n :: revMap f n := rfl

theorem revMap_reverse {α : Type} (f : ℕ → α) :
    ∀ n, (revMap f n).reverse = (List.range n).map f
  | 0 => rfl
  | n + 1 => by
    rw [revMap_succ, List.reverse_cons, revMap_reverse f n, List.range_succ,
      List.map_append]
    rfl

theorem simLoop_succ (c : Cfg) (gf : ℝ) (n : ℕ) :
    simLoop c gf (n + 1) = simStep c gf (simLoop c gf n) (ano_inicio + (n : ℤ)) := by
  unfold simLoop anosList
  rw [List.range_succ, List.map_append, List.foldl_append]
  rfl

theorem simLoop_eq (c : Cfg) (gf : ℝ) : ∀ n, simLoop c gf n =
    ⟨revMap (gSeq c gf) n, revMap (hcctrSeq c gf) n,
      revMap (shareSeq c gf) (n + 1), revMap (custoSeq c gf) (n + 1)⟩
  | 0 => rfl
  | n + 1 => by
    rw [simLoop_succ, simLoop_eq c gf n]
    rfl

/-- The chronological output of `simular_projecao`, component by
component, as maps of the per-index sequences over the year indices. -/
theorem simular_eq (c : Cfg) (gf : ℝ) :
    simular_projecao c gf =
      ((List.range (c.anos_proj + 1)).map (shareSeq c gf),
        (List.range c.anos_proj).map (gSeq c gf),
        (List.range c.anos_proj).map (hcctrSeq c gf),
        (List.range (c.anos_proj + 1)).map (custoSeq c gf)) := by
  unfold simular_projecao
  rw [simLoop_eq]
  simp only [revMap_reverse]

theorem shareSeq_zero (c : Cfg) (gf : ℝ) : shareSeq c gf 0 = c.share_inicial := rfl

theorem shareSeq_succ (c : Cfg) (gf : ℝ) (t : ℕ) :
    shareSeq c gf (t + 1) =
      shareSeq c gf t *
        (1.0 + (g_ano c gf (ano_inicio + (t : ℤ)) (shareSeq c gf t) - c.renda_pc_proj)) := rfl

theorem custoSeq_zero (c : Cfg) (gf : ℝ) : custoSeq c gf 0 = 1.0 := rfl

theorem custoSeq_succ (c : Cfg) (gf : ℝ) (t : ℕ) :
    custoSeq c gf (t + 1) = custoSeq c gf t * (1.0 + gSeq c gf t) := rfl

theorem gSeq_def (c : Cfg) (gf : ℝ) (t : ℕ) :
    gSeq c gf t = g_ano c gf (ano_inicio + (t : ℤ)) (shareSeq c gf t) := rfl

theorem hcctrSeq_def (c : Cfg) (gf : ℝ) (t : ℕ) :
    hcctrSeq c gf t = gSeq c gf t - c.renda_pc_proj := rfl

theorem rowSeq_def (c : Cfg) (gmed : ℝ) (t : ℕ) :
    rowSeq c gmed t =
      ⟨ano_inicio + (t : ℤ),
        (g_motivo c gmed (ano_inicio + (t : ℤ)) (shareSeq c gmed t)).1 * 100,
        ((g_motivo c gmed (ano_inicio + (t : ℤ)) (shareSeq c gmed t)).1 - c.renda_pc_proj) * 100,
        shareSeq c gmed t * 100,
        (g_motivo c gmed (ano_inicio + (t : ℤ)) (shareSeq c gmed t)).2⟩ := rfl

/-- The duplicated branch logic of the result-compilation loop resolves
the same growth rate as the projection loop. -/
theorem g_motivo_fst (c : Cfg) (gmed : ℝ) (ano : ℤ) (s : ℝ) :
    (g_motivo c gmed ano s).1 = g_ano c gmed ano s := by
  unfold g_motivo g_ano
  split_ifs <;> rfl

theorem dispLoop_succ (c : Cfg) (gmed : ℝ) (n : ℕ) :
    dispLoop c gmed (n + 1) = dispStep c gmed (dispLoop c gmed n) (ano_inicio + (n : ℤ)) := by
  unfold dispLoop anosList
  rw [List.range_succ, List.map_append, List.foldl_append]
  rfl

theorem dispLoop_eq (c : Cfg) (gmed : ℝ) : ∀ n, dispLoop c gmed n =
    ⟨revMap (gSeq c gmed) n, revMap (hcctrSeq c gmed) n,
      revMap (shareSeq c gmed) (n + 1), revMap (custoSeq c gmed) (n + 1),
      revMap (rowSeq c gmed) n⟩
  | 0 => rfl
  | n + 1 => by
    rw [dispLoop_succ, dispLoop_eq c gmed n]
    unfold dispStep
    simp only [revMap_succ, List.headI_cons, List.tail_cons, g_motivo_fst,
      gSeq_def, hcctrSeq_def, shareSeq_succ, custoSeq_succ, rowSeq_def]

/-- The result-compilation block, component by component. -/
theorem compilar_eq (c : Cfg) (gmed : ℝ) :
    compilar_resultados c gmed =
      (((List.range (c.anos_proj + 1)).map (shareSeq c gmed),
        (List.range c.anos_proj).map (gSeq c gmed),
        (List.range c.anos_proj).map (hcctrSeq c gmed),
        (List.range (c.anos_proj + 1)).map (custoSeq c gmed)),
        (List.range c.anos_proj).map (rowSeq c gmed)) := by
  unfold compilar_resultados
  rw [dispLoop_eq]
  simp only [revMap_reverse]

/-! ### Accessing the chronological output lists by year index -/

theorem getD_map_range {α : Type} (f : ℕ → α) (d : α) {t n : ℕ} (h : t < n) :
    ((List.range n).map f).getD t d = f t := by
  rw [List.getD_eq_getElem?_getD, List.getElem?_map, List.getElem?_range h]
  rfl

theorem share_getD (c : Cfg) (gf : ℝ) {t : ℕ} (h : t < c.anos_proj + 1) (d : ℝ) :
    (simular_projecao c gf).1.getD t d = shareSeq c gf t := by
  rw [simular_eq]
  exact getD_map_range _ d h

theorem cresc_getD (c : Cfg) (gf : ℝ) {t : ℕ} (h : t < c.anos_proj) (d : ℝ) :
    (simular_projecao c gf).2.1.getD t d = gSeq c gf t := by
  rw [simular_eq]
  exact getD_map_range _ d h

theorem hcctr_getD (c : Cfg) (gf : ℝ) {t : ℕ} (h : t < c.anos_proj) (d : ℝ) :
    (simular_projecao c gf).2.2.1.getD t d = hcctrSeq c gf t := by
  rw [simular_eq]
  exact getD_map_range _ d h

theorem custo_getD (c : Cfg) (gf : ℝ) {t : ℕ} (h : t < c.anos_proj + 1) (d : ℝ) :
    (simular_projecao c gf).2.2.2.getD t d = custoSeq c gf t := by
  rw [simular_eq]
  exact getD_map_range _ d h

theorem rows_getD (c : Cfg) (gmed : ℝ) {t : ℕ} (h : t < c.anos_proj) (d : DebugRow) :
    (compilar_resultados c gmed).2.getD t d = rowSeq c gmed t := by
  rw [compilar_eq]
  exact getD_map_range _ d h

/-- The terminal share `s_sim[-1]` read by the calibration loop is the
share after all `anos_proj` updates. -/
theorem share_getLastD (c : Cfg) (gf : ℝ) (d : ℝ) :
    (simular_projecao c gf).1.getLastD d = shareSeq c gf c.anos_proj := by
  rw [simular_eq]
  show ((List.range (c.anos_proj + 1)).map (shareSeq c gf)).getLastD d = _
  rw [List.range_succ, List.map_append]
  exact List.getLastD_concat _ _ _

/-! ### One-step evaluation helpers for concrete configurations -/

theorem shareSeq_one (c : Cfg) (gf : ℝ) :
    shareSeq c gf 1 =
      c.share_inicial * (1.0 + (g_ano c gf ano_inicio c.share_inicial - c.renda_pc_proj)) := by
  have h := shareSeq_succ c gf 0
  simpa using h

theorem shareSeq_two (c : Cfg) (gf : ℝ) :
    shareSeq c gf 2 =
      shareSeq c gf 1 *
        (1.0 + (g_ano c gf (ano_inicio + 1) (shareSeq c gf 1) - c.renda_pc_proj)) := by
  have h := shareSeq_succ c gf 1
  simpa using h

theorem custoSeq_one (c : Cfg) (gf : ℝ) :
    custoSeq c gf 1 = 1.0 * (1.0 + gSeq c gf 0) := by
  have h := custoSeq_succ c gf 0
  simpa using h

theorem g2025_exA : g_2025 exA = 0.08875 := by
  norm_num [g_2025, a_reg, b_reg, cov_b, var_anos, mean4, exA]

theorem g2025_exC9 : g_2025 exC9 = -0.5 := by
  norm_num [g_2025, a_reg, b_reg, cov_b, var_anos, mean4, exC9]

theorem g2025_exC5 : g_2025 exC5 = 0.5 := by
  norm_num [g_2025, a_reg, b_reg, cov_b, var_anos, mean4, exC5]

theorem g2025_exW2 : g_2025 exW2 = 0.1 := by
  norm_num [g_2025, a_reg, b_reg, cov_b, var_anos, mean4, exW2]

theorem g2025_exC3 : g_2025 exC3 = 0.1 := by
  norm_num [g_2025, a_reg, b_reg, cov_b, var_anos, mean4, exC3]

theorem g2025_exC6 : g_2025 exC6 = 0.05 := by
  norm_num [g_2025, a_reg, b_reg, cov_b, var_anos, mean4, exC6]

/-! ### Resistance factor bounds -/

theorem resistencia_pos (s l k : ℝ) : 0 < resistencia s l k := by
  unfold resistencia
  positivity

theorem resistencia_lt_one (s l k : ℝ) : resistencia s l k < 1 := by
  unfold resistencia
  rw [div_lt_one (by positivity)]
  have h := Real.exp_pos ((s - l) / k)
  linarith

/-- Outside the interpolation years, the resolved rate never falls below
the income benchmark (equality in the convergence branch, a non-negative
suppressed excess in the resistance branch). -/
theorem renda_le_g_ano (c : Cfg) (gf : ℝ) (a : ℤ) (s : ℝ) (h : ¬ a ≤ 2030) :
    c.renda_pc_proj ≤ g_ano c gf a s := by
  unfold g_ano
  rw [if_neg h]
  split_ifs with h2
  · exact le_refl _
  · have hf := resistencia_pos s c.share_resistencia 0.02
    have he := le_max_right (gf - c.renda_pc_proj) (0.0 : ℝ)
    nlinarith

/-- C10: the inline result-compilation loop computes exactly the same
four per-year numeric series as `simular_projecao` at every full-growth
rate, so the displayed table for the calibrated rate coincides with the
calibration engine's own projection of that rate. -/
theorem C10_table_refines_engine (c : Cfg) (g : ℝ) :
    (compilar_resultados c g).1 = simular_projecao c g := by
  rw [compilar_eq, simular_eq]

/-- C4: in every resistance-phase year the resolved medical growth rate
is at least the income growth rate, and the logistic suppression factor
evaluated at the previous share lies strictly between 0 and 1. -/
theorem C4_resistance_floor (c : Cfg) (gf : ℝ) (t : ℕ) (h1 : t < c.anos_proj)
    (h2 : ¬ (ano_inicio + (t : ℤ) ≤ 2030)) (_h3 : ano_inicio + (t : ℤ) < c.ano_limite) :
    c.renda_pc_proj ≤ (simular_projecao c gf).2.1.getD t 0 ∧
    0 < resistencia (shareSeq c gf t) c.share_resistencia 0.02 ∧
    resistencia (shareSeq c gf t) c.share_resistencia 0.02 < 1 := by
  refine ⟨?_, resistencia_pos _ _ _, resistencia_lt_one _ _ _⟩
  rw [cresc_getD c gf h1 0]
  exact renda_le_g_ano c gf _ _ h2

/-- Closed instance of the resistance floor: year 2031 (index 5) of the
ten-year configuration `exW2` is a resistance year. -/
theorem C4_witness :
    ((5 : ℕ) < exW2.anos_proj ∧ ¬ (ano_inicio + ((5 : ℕ) : ℤ) ≤ 2030) ∧
      ano_inicio + ((5 : ℕ) : ℤ) < exW2.ano_limite) ∧
    (exW2.renda_pc_proj ≤ (simular_projecao exW2 0.08).2.1.getD 5 0 ∧
      0 < resistencia (shareSeq exW2 0.08 5) exW2.share_resistencia 0.02 ∧
      resistencia (shareSeq exW2 0.08 5) exW2.share_resistencia 0.02 < 1) :=
  ⟨⟨by decide, by decide, by decide⟩,
    C4_resistance_floor exW2 0.08 5 (by decide) (by decide) (by decide)⟩

/-- C2: once past the interpolation years and at or beyond `ano_limite`,
the resolved rate equals the income growth rate exactly, the HCCTR is
exactly 0, the displayed rationale is the convergence tag, and the same
holds for every subsequent year of the horizon. -/
theorem C2_convergence (c : Cfg) (gf : ℝ) (t : ℕ) (h1 : t < c.anos_proj)
    (h2 : ¬ (ano_inicio + (t : ℤ) ≤ 2030)) (h3 : ano_inicio + (t : ℤ) ≥ c.ano_limite) :
    (simular_projecao c gf).2.1.getD t 0 = c.renda_pc_proj ∧
    (simular_projecao c gf).2.2.1.getD t 0 = 0 ∧
    ((compilar_resultados c gf).2.getD t rowDefault).motivo = "Convergência de Crescimento" ∧
    ∀ u, t ≤ u → u < c.anos_proj →
      (simular_projecao c gf).2.1.getD u 0 = c.renda_pc_proj ∧
      (simular_projecao c gf).2.2.1.getD u 0 = 0 := by
  have key : ∀ u, u < c.anos_proj → ¬ (ano_inicio + (u : ℤ) ≤ 2030) →
      ano_inicio + (u : ℤ) ≥ c.ano_limite →
      (simular_projecao c gf).2.1.getD u 0 = c.renda_pc_proj ∧
      (simular_projecao c gf).2.2.1.getD u 0 = 0 := by
    intro u hu h2u h3u
    have hg : gSeq c gf u = c.renda_pc_proj := by
      unfold gSeq g_ano
      rw [if_neg h2u, if_pos h3u]
    constructor
    · rw [cresc_getD c gf hu 0, hg]
    · rw [hcctr_getD c gf hu 0]
      unfold hcctrSeq
      rw [hg, sub_self]
  refine ⟨(key t h1 h2 h3).1, (key t h1 h2 h3).2, ?_, ?_⟩
  · rw [rows_getD c gf h1 rowDefault, rowSeq_def]
    show (g_motivo c gf (ano_inicio + (t : ℤ)) (shareSeq c gf t)).2 = _
    unfold g_motivo
    rw [if_neg h2, if_pos h3]
  · intro u htu hu
    have hle : ano_inicio + (t : ℤ) ≤ ano_inicio + (u : ℤ) :=
      add_le_add_left (Int.ofNat_le.mpr htu) _
    exact key u hu (fun hcon => h2 (le_trans hle hcon)) (le_trans h3 hle)

/-- Closed instance of terminal convergence: year 2035 (index 9) of the
configuration `exW2`, whose convergence year is 2035. -/
theorem C2_witness :
    ((9 : ℕ) < exW2.anos_proj ∧ ¬ (ano_inicio + ((9 : ℕ) : ℤ) ≤ 2030) ∧
      ano_inicio + ((9 : ℕ) : ℤ) ≥ exW2.ano_limite) ∧
    ((simular_projecao exW2 0.08).2.1.getD 9 0 = exW2.renda_pc_proj ∧
      (simular_projecao exW2 0.08).2.2.1.getD 9 0 = 0 ∧
      ((compilar_resultados exW2 0.08).2.getD 9 rowDefault).motivo =
        "Convergência de Crescimento" ∧
      ∀ u, 9 ≤ u → u < exW2.anos_proj →
        (simular_projecao exW2 0.08).2.1.getD u 0 = exW2.renda_pc_proj ∧
        (simular_projecao exW2 0.08).2.2.1.getD u 0 = 0) :=
  ⟨⟨by decide, by decide, by decide⟩,
    C2_convergence exW2 0.08 9 (by decide) (by decide) (by decide)⟩

/-- C3: the calibration scan returns the first candidate, in scan order,
whose terminal share reaches the target; candidates before it that fail
are skipped, and nothing past the first hit is consulted. -/
theorem C3_first_match (c : Cfg) (l : List ℝ) (i : ℕ) (hi : i < l.length)
    (hbefore : ∀ j (hj : j < i), ¬ passes c (l.get ⟨j, lt_trans hj hi⟩))
    (hpass : passes c (l.get ⟨i, hi⟩)) :
    best_gmed_of c l = l.get ⟨i, hi⟩ := by
  induction l generalizing i with
  | nil => exact absurd hi (Nat.not_lt_zero i)
  | cons g rest ih =>
    cases i with
    | zero =>
      have hpass0 : passes c g := hpass
      simp only [best_gmed_of]
      rw [if_pos hpass0]
      rfl
    | succ i =>
      have hg : ¬ passes c g := hbefore 0 (Nat.succ_pos i)
      simp only [best_gmed_of]
      rw [if_neg hg]
      exact ih i (Nat.lt_of_succ_lt_succ hi)
        (fun j hj => hbefore (j + 1) (Nat.succ_lt_succ hj)) hpass

/-- Terminal share of `exC3` under candidate 0: the single projected year
2026 resolves to rate 0.08, so the share ends at 0.108, short of the
0.11 target. -/
theorem exC3_fails_zero : ¬ passes exC3 0 := by
  unfold passes
  rw [share_getLastD]
  show ¬ shareSeq exC3 0 1 ≥ exC3.share_resistencia
  rw [shareSeq_one]
  unfold g_ano
  rw [if_pos (by decide), g2025_exC3]
  norm_num [exC3, min_def, max_def, ano_inicio]

/-- Terminal share of `exC3` under candidate 0.2: the single projected
year 2026 resolves to rate 0.12, so the share ends at 0.112 ≥ 0.11. -/
theorem exC3_passes_point_two : passes exC3 0.2 := by
  unfold passes
  rw [share_getLastD]
  show shareSeq exC3 0.2 1 ≥ exC3.share_resistencia
  rw [shareSeq_one]
  unfold g_ano
  rw [if_pos (by decide), g2025_exC3]
  norm_num [exC3, min_def, max_def, ano_inicio]

/-- Closed instance of calibration first-match on the ascending candidate
list `[0, 0.2]` for `exC3`: the first candidate fails, the second passes
and is returned. -/
theorem C3_witness :
    (¬ passes exC3 (([0, 0.2] : List ℝ).get ⟨0, by decide⟩)) ∧
    passes exC3 (([0, 0.2] : List ℝ).get ⟨1, by decide⟩) ∧
    best_gmed_of exC3 [0, 0.2] = ([0, 0.2] : List ℝ).get ⟨1, by decide⟩ :=
  ⟨exC3_fails_zero, exC3_passes_point_two,
    C3_first_match exC3 [0, 0.2] 1 (by decide)
      (fun j hj => by
        have hj0 : j = 0 := Nat.lt_one_iff.mp hj
        subst hj0
        exact exC3_fails_zero)
      exC3_passes_point_two⟩

/-- C1 counterexample: under Example A the first projected year (2026)
resolves to 0.087 by interpolation from the regression estimate 0.08875,
not to the first manually supplied rate 0.25. -/
theorem C1_counterexample :
    (simular_projecao exA 0.08).2.1.getD 0 0 = 0.087 ∧ (0.087 : ℝ) ≠ 0.25 := by
  constructor
  · rw [cresc_getD exA 0.08 (by decide) 0]
    unfold gSeq g_ano
    rw [if_pos (by decide), g2025_exA]
    norm_num [min_def, max_def, ano_inicio]
  · norm_num

/-- C1 as amended: every projected year at or before 2030 resolves by
linear interpolation between the regression estimate `g_2025` and the
full growth rate, with the interpolation rationale tag; the manual rates
influence the records only through `g_2025`. -/
theorem C1_amended (c : Cfg) (gf : ℝ) (t : ℕ) (h1 : t < c.anos_proj)
    (h2 : ano_inicio + (t : ℤ) ≤ 2030) :
    (simular_projecao c gf).2.1.getD t 0 =
      g_2025 c + (gf - g_2025 c) *
        min (max (((ano_inicio + (t : ℤ) - 2025 : ℤ) : ℝ) / (((2030 - 2025 : ℤ)) : ℝ)) 0.0) 1.0 ∧
    ((compilar_resultados c gf).2.getD t rowDefault).motivo = "Interpolação 2025–2030" := by
  constructor
  · rw [cresc_getD c gf h1 0]
    unfold gSeq g_ano
    rw [if_pos h2]
    norm_num
  · rw [rows_getD c gf h1 rowDefault, rowSeq_def]
    show (g_motivo c gf (ano_inicio + (t : ℤ)) (shareSeq c gf t)).2 = _
    unfold g_motivo
    rw [if_pos h2]

/-- Closed instance of the amended interpolation rule at Example A's
first projected year. -/
theorem C1_witness :
    ((0 : ℕ) < exA.anos_proj ∧ ano_inicio + ((0 : ℕ) : ℤ) ≤ 2030) ∧
    ((simular_projecao exA 0.08).2.1.getD 0 0 =
        g_2025 exA + (0.08 - g_2025 exA) *
          min (max (((ano_inicio + ((0 : ℕ) : ℤ) - 2025 : ℤ) : ℝ) / (((2030 - 2025 : ℤ)) : ℝ)) 0.0) 1.0 ∧
      ((compilar_resultados exA 0.08).2.getD 0 rowDefault).motivo = "Interpolação 2025–2030") :=
  ⟨⟨by decide, by decide⟩, C1_amended exA 0.08 0 (by decide) (by decide)⟩

/-- Interpolation between `x` and `y` with a coefficient in `[0, 1]`
never falls below `min x y`. -/
theorem interp_lb (x y f : ℝ) (h0 : 0 ≤ f) (h1 : f ≤ 1) : min x y ≤ x + (y - x) * f := by
  rcases le_total x y with hc | hc
  · have h2 : 0 ≤ (y - x) * f := mul_nonneg (by linarith) h0
    have h3 := min_le_left x y
    linarith
  · have h2 : (y - x) * 1 ≤ (y - x) * f := mul_le_mul_of_nonpos_left h1 (by linarith)
    have h3 := min_le_right x y
    linarith

/-- In an interpolation year the resolved rate is bounded below by the
smaller of `g_2025` and the full growth rate, because the clamped
fraction lies in `[0, 1]`. -/
theorem g_ano_interp_lb (c : Cfg) (gf : ℝ) (a : ℤ) (s : ℝ) (h : a ≤ 2030) :
    min (g_2025 c) gf ≤ g_ano c gf a s := by
  unfold g_ano
  rw [if_pos h]
  show min (g_2025 c) gf ≤ g_2025 c + (gf - g_2025 c) *
    min (max (if (2030 - 2025 : ℤ) ≠ 0 then ((a - 2025 : ℤ) : ℝ) / (((2030 - 2025 : ℤ)) : ℝ)
      else 1.0) 0.0) 1.0
  exact interp_lb _ _ _
    (le_min (le_trans (by norm_num) (le_max_right _ _)) (by norm_num))
    (le_trans (min_le_right _ _) (by norm_num))

/-- Share of `exC5` after two projected years: both 2026 and 2027 resolve
to the constant rate 0.5 (regression estimate and full rate coincide), so
the share grows from 0.14 to 0.21 to 0.315, crossing the 0.15 ceiling. -/
theorem exC5_share_two : shareSeq exC5 0.5 2 = 0.315 := by
  rw [shareSeq_two, shareSeq_one]
  unfold g_ano
  rw [if_pos (show ano_inicio + (1 : ℤ) ≤ 2030 by decide),
    if_pos (show ano_inicio ≤ 2030 by decide), g2025_exC5]
  norm_num [exC5, min_def, max_def, ano_inicio]

/-- C5: the displayed record's share is the pre-update share of its year,
the share list obeys `share[t+1] = share[t] * (1 + hcctr[t])`, and the
share is not capped at the resistance ceiling: in `exC5` it starts below
the ceiling and the year-2028 record reports a share above it. -/
theorem C5_share_invariants (c : Cfg) (gf : ℝ) (t : ℕ) (h1 : t < c.anos_proj) :
    ((compilar_resultados c gf).2.getD t rowDefault).sharePct = shareSeq c gf t * 100 ∧
    (simular_projecao c gf).1.getD (t + 1) 0 =
      (simular_projecao c gf).1.getD t 0 * (1 + (simular_projecao c gf).2.2.1.getD t 0) ∧
    (shareSeq exC5 0.5 0 < exC5.share_resistencia ∧
      exC5.share_resistencia * 100 <
        ((compilar_resultados exC5 0.5).2.getD 2 rowDefault).sharePct) := by
  refine ⟨?_, ?_, ?_, ?_⟩
  · rw [rows_getD c gf h1 rowDefault, rowSeq_def]
  · rw [share_getD c gf (Nat.succ_lt_succ h1) 0,
      share_getD c gf (lt_trans h1 (Nat.lt_succ_self _)) 0,
      hcctr_getD c gf h1 0, shareSeq_succ]
    unfold hcctrSeq gSeq
    norm_num
  · rw [shareSeq_zero]
    norm_num [exC5]
  · rw [rows_getD exC5 0.5 (by decide) rowDefault, rowSeq_def]
    show exC5.share_resistencia * 100 < shareSeq exC5 0.5 2 * 100
    rw [exC5_share_two]
    norm_num [exC5]

/-- Closed instance of the share invariants at year index 1 of `exC5`. -/
theorem C5_witness :
    ((1 : ℕ) < exC5.anos_proj) ∧
    (((compilar_resultados exC5 0.5).2.getD 1 rowDefault).sharePct = shareSeq exC5 0.5 1 * 100 ∧
      (simular_projecao exC5 0.5).1.getD (1 + 1) 0 =
        (simular_projecao exC5 0.5).1.getD 1 0 *
          (1 + (simular_projecao exC5 0.5).2.2.1.getD 1 0) ∧
      (shareSeq exC5 0.5 0 < exC5.share_resistencia ∧
        exC5.share_resistencia * 100 <
          ((compilar_resultados exC5 0.5).2.getD 2 rowDefault).sharePct)) :=
  ⟨by decide, C5_share_invariants exC5 0.5 1 (by decide)⟩

/-- Candidate `renda_pc_proj = 0.05` legitimately calibrates `exC6`: with
constant rates 0.05 the share stays at 0.2, which meets the 0.15 target. -/
theorem exC6_passes_renda : passes exC6 0.05 := by
  unfold passes
  rw [share_getLastD]
  show shareSeq exC6 0.05 1 ≥ exC6.share_resistencia
  rw [shareSeq_one]
  unfold g_ano
  rw [if_pos (by decide), g2025_exC6]
  norm_num [exC6, min_def, max_def, ano_inicio]

/-- C6 counterexample: an exhausted scan and a legitimately calibrated
scan return the identical bare number `0.05` — the fallback is
indistinguishable from a real result, with no explicit exhaustion
signal. -/
theorem C6_counterexample :
    best_gmed_of exC6 [] = 0.05 ∧ passes exC6 0.05 ∧
      best_gmed_of exC6 [0.05] = 0.05 := by
  refine ⟨?_, exC6_passes_renda, ?_⟩
  · show exC6.renda_pc_proj = 0.05
    norm_num [exC6]
  · simp only [best_gmed_of]
    rw [if_pos exC6_passes_renda]

/-- C6 as amended: when no candidate reaches the target, the scan simply
returns the fallback `renda_pc_proj`, a plain number carrying no
exhaustion marker. -/
theorem C6_amended (c : Cfg) (l : List ℝ) (hnone : ∀ g ∈ l, ¬ passes c g) :
    best_gmed_of c l = c.renda_pc_proj := by
  induction l with
  | nil => rfl
  | cons g rest ih =>
    simp only [best_gmed_of]
    rw [if_neg (hnone g (List.mem_cons_self g rest))]
    exact ih (fun x hx => hnone x (List.mem_cons_of_mem g hx))

/-- Closed instance of the silent calibration fallback on an exhausted
(empty) candidate list. -/
theorem C6_witness :
    (∀ g ∈ ([] : List ℝ), ¬ passes exC6 g) ∧
    best_gmed_of exC6 [] = exC6.renda_pc_proj :=
  ⟨by simp, C6_amended exC6 [] (by simp)⟩

/-- Length of the HCCTR series is the horizon. -/
theorem hcctr_length (c : Cfg) (gf : ℝ) :
    (simular_projecao c gf).2.2.1.length = c.anos_proj := by
  rw [simular_eq]
  simp

/-- C7 as amended: over a horizon of at most five years, `summarize` does
not crash — it yields the NaN marker (`none`, the embedded image of
`np.mean` of an empty slice) for the medium and long buckets, with no
distinct not-available signal. -/
theorem C7_amended (c : Cfg) (gf : ℝ) (h : c.anos_proj ≤ 5) :
    (summarize ((simular_projecao c gf).2.2.1)).2.1 = none ∧
    (summarize ((simular_projecao c gf).2.2.1)).2.2 = none := by
  have hlen := hcctr_length c gf
  unfold summarize
  constructor
  · have hd : (simular_projecao c gf).2.2.1.drop 5 = [] :=
      List.drop_eq_nil_of_le (by rw [hlen]; exact h)
    rw [hd]
    rfl
  · have hd : (simular_projecao c gf).2.2.1.drop 9 = [] :=
      List.drop_eq_nil_of_le (by rw [hlen]; omega)
    rw [hd]
    rfl

/-- C7 counterexample: under Example A (horizon 5) the medium and long
summary buckets are the propagated NaN of `np.mean` over an empty slice,
not an explicit not-available result distinct from the numeric path. -/
theorem C7_counterexample :
    ((simular_projecao exA 0.08).2.2.1).length = 5 ∧
    (summarize ((simular_projecao exA 0.08).2.2.1)).2.1 = none ∧
    (summarize ((simular_projecao exA 0.08).2.2.1)).2.2 = none := by
  have hlen := hcctr_length exA 0.08
  refine ⟨by rw [hlen]; rfl, ?_, ?_⟩
  · unfold summarize
    have hd : (simular_projecao exA 0.08).2.2.1.drop 5 = [] :=
      List.drop_eq_nil_of_le (by rw [hlen]; decide)
    rw [hd]
    rfl
  · unfold summarize
    have hd : (simular_projecao exA 0.08).2.2.1.drop 9 = [] :=
      List.drop_eq_nil_of_le (by rw [hlen]; decide)
    rw [hd]
    rfl

/-- Closed instance of the NaN buckets at Example A. -/
theorem C7_witness :
    (exA.anos_proj ≤ 5) ∧
    ((summarize ((simular_projecao exA 0.08).2.2.1)).2.1 = none ∧
      (summarize ((simular_projecao exA 0.08).2.2.1)).2.2 = none) :=
  ⟨by decide, C7_amended exA 0.08 (by decide)⟩

/-- C8 counterexample: with a zero-length horizon the projection performs
no validation and silently returns the seed-only series (no error value,
no exception path exists in the code), and the displayed table is empty. -/
theorem C8_counterexample :
    simular_projecao exH0 0.08 = ([0.096], [], [], [1.0]) ∧
    (compilar_resultados exH0 0.08).2 = [] := by
  constructor
  · rw [simular_eq]
    rfl
  · rw [compilar_eq]
    rfl

/-- C8 as amended: `simular_projecao` is total and unvalidated — for any
configuration with `anos_proj = 0` it silently returns the seeded lists
and emits no year record, rather than failing fast. -/
theorem C8_amended (c : Cfg) (gf : ℝ) (h : c.anos_proj = 0) :
    simular_projecao c gf = ([c.share_inicial], [], [], [1.0]) ∧
    (compilar_resultados c gf).2 = [] := by
  constructor
  · rw [simular_eq, h]
    rfl
  · rw [compilar_eq, h]
    rfl

/-- Closed instance of the silent empty projection. -/
theorem C8_witness :
    (exH0.anos_proj = 0) ∧
    (simular_projecao exH0 0.08 = ([exH0.share_inicial], [], [], [1.0]) ∧
      (compilar_resultados exH0 0.08).2 = []) :=
  ⟨by decide, C8_amended exH0 0.08 (by decide)⟩

/-- First-year rate of `exC9`: interpolation from the regression estimate
`-0.5` towards the candidate `0.05` gives `-0.39`, a negative rate above
`-1`. -/
theorem exC9_g_zero : gSeq exC9 0.05 0 = -0.39 := by
  unfold gSeq g_ano
  rw [if_pos (by decide), g2025_exC9]
  norm_num [min_def, max_def, ano_inicio]

/-- Every rate of the `exC9` projection exceeds `-1`: interpolation years
are bounded below by `min (g_2025) 0.05 = -0.5` and later years by the
income rate `0.05`. -/
theorem exC9_rates_gt_neg_one : ∀ i, i < exC9.anos_proj → (-1 : ℝ) < gSeq exC9 0.05 i := by
  intro i _
  by_cases hc : ano_inicio + (i : ℤ) ≤ 2030
  · have hlb := g_ano_interp_lb exC9 0.05 (ano_inicio + (i : ℤ)) (shareSeq exC9 0.05 i) hc
    rw [g2025_exC9] at hlb
    have hm : min (-0.5 : ℝ) 0.05 = -0.5 := by norm_num [min_def]
    rw [hm] at hlb
    unfold gSeq
    linarith
  · have hlb := renda_le_g_ano exC9 0.05 (ano_inicio + (i : ℤ)) (shareSeq exC9 0.05 i) hc
    have hr : exC9.renda_pc_proj = 0.05 := by norm_num [exC9]
    unfold gSeq
    linarith

/-- C9 counterexample: in `exC9` (all manual rates inside the sidebar's
`[0, 1]` range) every projected rate exceeds `-1`, yet the cumulative
cost factor falls from 1.0 to 0.61 in the first year — with a rate in
`(-1, 0)` the factor strictly decreases. -/
theorem C9_counterexample :
    (∀ i, i < exC9.anos_proj → (-1 : ℝ) < gSeq exC9 0.05 i) ∧
    (simular_projecao exC9 0.05).2.2.2.getD 1 0 <
      (simular_projecao exC9 0.05).2.2.2.getD 0 0 := by
  refine ⟨exC9_rates_gt_neg_one, ?_⟩
  rw [custo_getD exC9 0.05 (show (1 : ℕ) < exC9.anos_proj + 1 by decide) 0,
    custo_getD exC9 0.05 (show (0 : ℕ) < exC9.anos_proj + 1 by decide) 0,
    custoSeq_one, custoSeq_zero, exC9_g_zero]
  norm_num

/-- The cumulative cost factor as a closed product of the yearly growth
factors. -/
theorem custoSeq_prod (c : Cfg) (gf : ℝ) :
    ∀ t, custoSeq c gf t = ∏ i ∈ Finset.range t, (1 + gSeq c gf i)
  | 0 => by
    rw [custoSeq_zero, Finset.range_zero, Finset.prod_empty]
    norm_num
  | t + 1 => by
    rw [custoSeq_succ, Finset.prod_range_succ, custoSeq_prod c gf t]
    norm_num

/-- C9 as amended: the cumulative factor starts at 1.0, equals the
compounding product of `(1 + rate)` over the years up to and including
the current one, and is monotonically non-decreasing whenever every rate
is non-negative (a rate in `(-1, 0)` keeps it positive but strictly
decreases it, so `> -1` alone does not give monotonicity). -/
theorem C9_amended (c : Cfg) (gf : ℝ)
    (hg : ∀ i, i < c.anos_proj → 0 ≤ gSeq c gf i) :
    (simular_projecao c gf).2.2.2.getD 0 0 = 1.0 ∧
    (∀ t, t < c.anos_proj + 1 →
      (simular_projecao c gf).2.2.2.getD t 0 = ∏ i ∈ Finset.range t, (1 + gSeq c gf i)) ∧
    (∀ s t, s ≤ t → t < c.anos_proj + 1 →
      (simular_projecao c gf).2.2.2.getD s 0 ≤ (simular_projecao c gf).2.2.2.getD t 0) := by
  have hpos : ∀ t, t ≤ c.anos_proj → 0 ≤ custoSeq c gf t := by
    intro t
    induction t with
    | zero =>
      intro _
      rw [custoSeq_zero]
      norm_num
    | succ t ih =>
      intro ht
      rw [custoSeq_succ]
      have p1 := ih (Nat.le_of_succ_le ht)
      have p2 := hg t (Nat.lt_of_succ_le ht)
      nlinarith
  have hmono : ∀ t, t < c.anos_proj → custoSeq c gf t ≤ custoSeq c gf (t + 1) := by
    intro t ht
    rw [custoSeq_succ]
    have p1 := hpos t (Nat.le_of_lt ht)
    have p2 := hg t ht
    nlinarith
  have hchain : ∀ t, t ≤ c.anos_proj → ∀ s, s ≤ t → custoSeq c gf s ≤ custoSeq c gf t := by
    intro t
    induction t with
    | zero =>
      intro _ s hs
      rw [Nat.le_zero.mp hs]
    | succ t ih =>
      intro ht s hs
      rcases Nat.lt_or_ge s (t + 1) with hlt | hge
      · exact le_trans (ih (Nat.le_of_succ_le ht) s (Nat.lt_succ_iff.mp hlt))
          (hmono t (Nat.lt_of_succ_le ht))
      · rw [le_antisymm hs hge]
  refine ⟨?_, ?_, ?_⟩
  · rw [custo_getD c gf (Nat.succ_pos _) 0, custoSeq_zero]
  · intro t ht
    rw [custo_getD c gf ht 0, custoSeq_prod]
  · intro s t hst ht
    rw [custo_getD c gf (lt_of_le_of_lt hst ht) 0, custo_getD c gf ht 0]
    exact hchain t (Nat.lt_succ_iff.mp ht) s hst

/-- Every rate of the `exW2` projection under candidate 0.08 is
non-negative: interpolation years are bounded below by
`min (g_2025) 0.08 = 0.08` and later years by the income rate `0.05`. -/
theorem exW2_rates_nonneg : ∀ i, i < exW2.anos_proj → 0 ≤ gSeq exW2 0.08 i := by
  intro i _
  by_cases hc : ano_inicio + (i : ℤ) ≤ 2030
  · have hlb := g_ano_interp_lb exW2 0.08 (ano_inicio + (i : ℤ)) (shareSeq exW2 0.08 i) hc
    rw [g2025_exW2] at hlb
    have hm : min (0.1 : ℝ) 0.08 = 0.08 := by norm_num [min_def]
    rw [hm] at hlb
    unfold gSeq
    linarith
  · have hlb := renda_le_g_ano exW2 0.08 (ano_inicio + (i : ℤ)) (shareSeq exW2 0.08 i) hc
    have hr : exW2.renda_pc_proj = 0.05 := by norm_num [exW2]
    unfold gSeq
    linarith

/-- Closed instance of seed, product form and monotonicity of the
cumulative factor for the all-non-negative-rate configuration `exW2`. -/
theorem C9_witness :
    (∀ i, i < exW2.anos_proj → 0 ≤ gSeq exW2 0.08 i) ∧
    ((simular_projecao exW2 0.08).2.2.2.getD 0 0 = 1.0 ∧
      (∀ t, t < exW2.anos_proj + 1 →
        (simular_projecao exW2 0.08).2.2.2.getD t 0 =
          ∏ i ∈ Finset.range t, (1 + gSeq exW2 0.08 i)) ∧
      (∀ s t, s ≤ t → t < exW2.anos_proj + 1 →
        (simular_projecao exW2 0.08).2.2.2.getD s 0 ≤
          (simular_projecao exW2 0.08).2.2.2.getD t 0)) :=
  ⟨exW2_rates_nonneg, C9_amended exW2 0.08 exW2_rates_nonneg⟩
